import Mathlib

/-!
Shallow embedding of the core of `src/streamlit_code.py` (employee-productivity):
the image normalization pipeline (`compress_image`, `aggressive_compress`,
`auto_crop`), the payload validator (`validate_input`), and the job
orchestrator (`poll_execution_status`, `trigger_analysis`).

External libraries (PIL, boto3, requests, json) are modelled as explicit
parameters: a `PILEnv` of pure image operations together with a small heap
capturing PIL object identity and in-place mutation, a `describe` oracle for
successive `describe_execution` calls, a `parse` oracle for `json.loads`,
and an `Except`-valued submission response for `requests.post`.

Definitions come first (the embedding, spec-side reformulations, and the
concrete library behaviors used to evaluate runs), followed by all lemmas
and theorems.
-/

namespace EP


/-! ## Definitions: payload validator, PIL model, pipeline, orchestrator -/

/-- Embedding of `validate_input` (src/streamlit_code.py lines 110-119).
`not image_base64` on a `str` is truthiness, i.e. the empty string;
`len(image_base64.encode('utf-8'))` is the UTF-8 byte length. -/
def validate_input (image_base64 : String) : Bool × String :=
  if image_base64 = "" then
    (false, "No image data provided")
  else
    let size_in_bytes := image_base64.utf8ByteSize
    if size_in_bytes > 262000 then
      (false, "Image too large (" ++ toString size_in_bytes ++
        " bytes). Maximum allowed is 262144 bytes.")
    else
      (true, "")

/-- The string of `n` copies of the character `a`, used as a concrete
base64-like payload of a prescribed UTF-8 byte length. -/
def repChar (n : Nat) : String := String.mk (List.replicate n 'a')

/-- The pure image operations of the PIL library, as used by the source.
`save` is `img.save(buffer, format='PNG', optimize=True, quality=q)`
(the `optimize=True` flag is the same at every call site and is omitted);
`thumbnail` takes the target cap and the optional resampling filter. -/
structure PILEnv (Img : Type) where
  decode : List Nat → Option Img
  format : Img → Option String
  mode : Img → String
  convert : Img → String → Img
  getbbox : Img → Option (Nat × Nat × Nat × Nat)
  crop : Img → Nat × Nat × Nat × Nat → Img
  thumbnail : Img → Nat × Nat → Option String → Img
  save : Img → Option Nat → List Nat

/-- Heap of PIL image objects: cell `r` holds the pixel data of object `r`. -/
abbrev Heap (Img : Type) := List Img

/-- Allocate a fresh image object holding value `v`; returns its reference. -/
def halloc (σ : Heap Img) (v : Img) : Nat × Heap Img := (σ.length, σ ++ [v])

/-- Read the image value of object `r`. -/
def hget [Inhabited Img] (σ : Heap Img) (r : Nat) : Img := σ.getD r default

/-- In-place mutation of object `r` (e.g. `thumbnail`). -/
def hset (σ : Heap Img) (r : Nat) (v : Img) : Heap Img := σ.set r v

/-- Embedding of `auto_crop` (src/streamlit_code.py lines 30-35), as the pure
value transformation it performs: crop to the bounding box when one exists,
otherwise leave the image unchanged. -/
def auto_crop (env : PILEnv Img) (img : Img) : Img :=
  match env.getbbox img with
  | some bbox => env.crop img bbox
  | none => img

/-- The loop of `aggressive_compress` (src/streamlit_code.py lines 39-46):
for each cap, make a fresh copy of the image object `r`, thumbnail the copy
in place, re-encode it as PNG, and return the buffer if it fits the budget.
Returns the Python function's return value together with the final heap. -/
def aggressive_compress_go [Inhabited Img] (env : PILEnv Img) (r : Nat) :
    List (Nat × Nat) → Heap Img → Option (List Nat) × Heap Img
  | [], σ => (none, σ)
  | size :: rest, σ =>
    let a := halloc σ (hget σ r)
    let σ1 := hset a.2 a.1 (env.thumbnail (hget a.2 a.1) size none)
    let buffer := env.save (hget σ1 a.1) none
    if buffer.length ≤ 250000 then (some buffer, σ1)
    else aggressive_compress_go env r rest σ1

/-- Embedding of `aggressive_compress` (src/streamlit_code.py lines 37-47),
called on the image object `r` living in heap `σ`. -/
def aggressive_compress [Inhabited Img] (env : PILEnv Img) (σ : Heap Img)
    (r : Nat) : Option (List Nat) × Heap Img :=
  aggressive_compress_go env r [(400, 400), (300, 300), (200, 200)] σ

/-- Embedding of `compress_image` (src/streamlit_code.py lines 57-98) on the
raw bytes of the uploaded file.  `Image.open` failure is the `except` path
(return `None`); the heap starts with the single opened image object. -/
def compress_image [Inhabited Img] (env : PILEnv Img) (uploaded : List Nat) :
    Option (List Nat) :=
  match env.decode uploaded with
  | none => none
  | some img0 =>
    let a0 := halloc ([] : Heap Img) img0
    if uploaded.length ≤ 250000 ∧ env.format img0 = some "PNG" then
      some uploaded
    else
      let a1 :=
        if env.mode (hget a0.2 a0.1) ≠ "RGBA" ∧ env.mode (hget a0.2 a0.1) ≠ "RGB" then
          halloc a0.2 (env.convert (hget a0.2 a0.1) "RGB")
        else a0
      let a2 :=
        match env.getbbox (hget a1.2 a1.1) with
        | some bbox => halloc a1.2 (env.crop (hget a1.2 a1.1) bbox)
        | none => a1
      let σ3 := hset a2.2 a2.1 (env.thumbnail (hget a2.2 a2.1) (500, 500) (some "LANCZOS"))
      let buffer := env.save (hget σ3 a2.1) (some 85)
      if buffer.length > 250000 then
        match aggressive_compress env σ3 a2.1 with
        | (some compressed, _) => some compressed
        | (none, σ4) =>
          let imgL := env.convert (hget σ4 a2.1) "L"
          some (env.save imgL (some 70))
      else
        some buffer

/-- The image value reached after the color-normalization, auto-crop and
500×500 LANCZOS thumbnail stages of `compress_image` (the "500-capped"
image handed to the aggressive stage and, on failure, to grayscale). -/
def normalized500 (env : PILEnv Img) (img0 : Img) : Img :=
  let i1 :=
    if env.mode img0 ≠ "RGBA" ∧ env.mode img0 ≠ "RGB" then env.convert img0 "RGB"
    else img0
  env.thumbnail (auto_crop env i1) (500, 500) (some "LANCZOS")

/-- The three candidate PNG re-encodes the aggressive stage produces from an
image value `v`, in the order the loop tries them. -/
def aggressiveCandidates (env : PILEnv Img) (v : Img) : List (List Nat) :=
  [(400, 400), (300, 300), (200, 200)].map
    (fun s => env.save (env.thumbnail v s none) none)

/-- The part of `compress_image` after the 500×500 thumbnail, re-expressed as
a pure function of the 500-capped image value `v`: re-encode; if over budget
take the first fitting aggressive candidate; if none fits, grayscale `v` and
re-encode once more, returning that buffer unconditionally. -/
def compressSpecTail (env : PILEnv Img) (v : Img) : Option (List Nat) :=
  let buffer := env.save v (some 85)
  if buffer.length > 250000 then
    match (aggressiveCandidates env v).find? (fun b => b.length ≤ 250000) with
    | some c => some c
    | none => some (env.save (env.convert v "L") (some 70))
  else
    some buffer

/-- A list of `n` bytes, standing for an encoded buffer of size `n`. -/
def bigList (n : Nat) : List Nat := List.replicate n 0

/-- PIL behavior where the image is a small PNG: the fast path applies. -/
def pngEnv : PILEnv Nat where
  decode := fun _ => some 0
  format := fun _ => some "PNG"
  mode := fun _ => "RGB"
  convert := fun i _ => i
  getbbox := fun _ => none
  crop := fun i _ => i
  thumbnail := fun i _ _ => i
  save := fun _ _ => []

/-- Encoder sizes for `cexEnv1`: the 500-capped encode and all three
aggressive candidates are over budget, and the grayscale encode is still
260,000 bytes — over the 250,000 budget. -/
def cexSave1 (i : Nat) (_q : Option Nat) : List Nat :=
  if i = 500 then bigList 300001
  else if i = 501 then bigList 260000
  else bigList 260002

/-- PIL behavior of a large JPEG whose every re-encode, grayscale included,
exceeds the 250,000-byte budget. `thumbnail` tags the image by its cap and
`convert _ "L"` moves 500 to 501. -/
def cexEnv1 : PILEnv Nat where
  decode := fun _ => some 0
  format := fun _ => some "JPEG"
  mode := fun _ => "RGB"
  convert := fun i m => if m = "L" then i + 1 else i
  getbbox := fun _ => none
  crop := fun i _ => i
  thumbnail := fun _ size _ => size.1
  save := cexSave1

/-- Encoder sizes for `cexEnv2`: as `cexEnv1`, except that the grayscale
encode is tiny (2 bytes), so the grayscale last resort fits the budget. -/
def cexSave2 (i : Nat) (_q : Option Nat) : List Nat :=
  if i = 500 then bigList 300001
  else if i = 501 then [7, 7]
  else bigList 260002

/-- PIL behavior of a large JPEG where the three aggressive caps all fail
the budget but the grayscale re-encode fits. -/
def cexEnv2 : PILEnv Nat where
  decode := fun _ => some 0
  format := fun _ => some "JPEG"
  mode := fun _ => "RGB"
  convert := fun i m => if m = "L" then i + 1 else i
  getbbox := fun _ => none
  crop := fun i _ => i
  thumbnail := fun _ size _ => size.1
  save := cexSave2

inductive PyVal where
  | dict : List (String × PyVal) → PyVal
  | str : String → PyVal
  | int : Int → PyVal
  | pylist : List PyVal → PyVal
  | none

/-- Python `d.get(k, dflt)` on a dict. -/
def pyGet (d : List (String × PyVal)) (k : String) (dflt : PyVal) : PyVal :=
  match d.find? (fun kv => kv.1 == k) with
  | some kv => kv.2
  | Option.none => dflt

/-- Python truthiness of a `PyVal` (`if execution_arn:`). -/
def pyTruthy : PyVal → Bool
  | .dict d => !d.isEmpty
  | .str s => s ≠ ""
  | .int n => n ≠ 0
  | .pylist l => !l.isEmpty
  | .none => false

/-- A `describe_execution` response: `status` is always present; `output`
and `error` model `response.get('output', ...)` / `response.get('error', ...)`. -/
structure DescribeResponse where
  status : String
  output : Option String
  error : Option String

/-- The dict returned by `poll_execution_status`: always a `status` key,
and an `output` (parsed) or `error` entry depending on the branch. -/
structure PollResult where
  status : String
  output : Option PyVal
  error : Option String

/-- The loop body of `poll_execution_status` (src/streamlit_code.py lines
124-167).  `describe i` is the result of the `i`-th `describe_execution`
call (`Except.error e` = an exception in the `try` block, caught by the
outer handler).  Returns the Python return value together with the number
of status queries issued and the number of `time.sleep(delay)` calls. -/
def poll_execution_status_go (parse : String → Option PyVal)
    (describe : Nat → Except String DescribeResponse) :
    Nat → Nat → PollResult × Nat × Nat
  | _, 0 => (⟨"TIMEOUT", Option.none, some "Maximum polling attempts reached"⟩, 0, 0)
  | i, n + 1 =>
    match describe i with
    | .error e => (⟨"ERROR", Option.none, some e⟩, 1, 0)
    | .ok response =>
      if response.status = "SUCCEEDED" then
        match parse (response.output.getD "\x7b\x7d") with
        | some parsed_output => (⟨response.status, some parsed_output, Option.none⟩, 1, 0)
        | Option.none => (⟨"ERROR", Option.none, some "Invalid JSON output"⟩, 1, 0)
      else if response.status = "FAILED" ∨ response.status = "TIMED_OUT" ∨
          response.status = "ABORTED" then
        (⟨response.status, Option.none, some (response.error.getD "Unknown error")⟩, 1, 0)
      else
        let rest := poll_execution_status_go parse describe (i + 1) n
        (rest.1, rest.2.1 + 1, rest.2.2 + 1)

/-- Embedding of `poll_execution_status` (src/streamlit_code.py lines
120-167).  The source defaults are `max_attempts=30, delay=2`; the fixed
`delay` only scales the sleeps, whose count is the third component. -/
def poll_execution_status (parse : String → Option PyVal)
    (describe : Nat → Except String DescribeResponse) (max_attempts : Nat) :
    PollResult × Nat × Nat :=
  poll_execution_status_go parse describe 0 max_attempts

/-- A `requests.post` response: HTTP status code, `response.json()` (which
may raise), and `response.text`. -/
structure HttpResponse where
  status_code : Nat
  jsonBody : Except String PyVal
  text : String

/-- The dict `trigger_analysis` returns on success: exactly the three keys
`visual_analysis`, `activity_pattern`, `productivity_assessment`. -/
structure AnalysisResult where
  visual_analysis : PyVal
  activity_pattern : PyVal
  productivity_assessment : PyVal

/-- Embedding of `trigger_analysis` (src/streamlit_code.py lines 239-294).
`post` is the submission response (`Except.error` = request exception).
Returns the Python return value, the list of `st.error` messages shown, and
the number of `describe_execution` status queries issued. -/
def trigger_analysis (parse : String → Option PyVal)
    (post : Except String HttpResponse)
    (describe : Nat → Except String DescribeResponse)
    (image_base64 : String) :
    Option AnalysisResult × List String × Nat :=
  let v := validate_input image_base64
  if v.1 = false then
    (Option.none, [v.2], 0)
  else
    match post with
    | .error e => (Option.none, ["Error in analysis: " ++ e], 0)
    | .ok response =>
      if response.status_code = 200 then
        match response.jsonBody with
        | .error e => (Option.none, ["Error in analysis: " ++ e], 0)
        | .ok result =>
          match result with
          | PyVal.dict d =>
            let execution_arn := pyGet d "executionArn" PyVal.none
            if pyTruthy execution_arn then
              let p := poll_execution_status parse describe 30
              if p.1.status = "SUCCEEDED" then
                match p.1.output.getD (PyVal.dict []) with
                | PyVal.dict out =>
                  (some ⟨pyGet out "visual_analysis" (PyVal.dict []),
                    pyGet out "activity_pattern" (PyVal.dict []),
                    pyGet out "productivity_assessment" (PyVal.dict [])⟩, [], p.2.1)
                | _ => (Option.none, ["Error in analysis: AttributeError"], p.2.1)
              else
                (Option.none, ["Analysis failed: " ++ p.1.error.getD "None"], p.2.1)
            else
              (Option.none, ["No execution ARN received"], 0)
          | _ => (Option.none, ["Error in analysis: AttributeError"], 0)
      else
        (Option.none, ["API Error: " ++ toString response.status_code,
          "Response: " ++ response.text], 0)

/-! ## Lemmas and theorems -/

theorem utf8ByteSize_repChar (n : Nat) : (repChar n).utf8ByteSize = n := by
  unfold repChar
  induction n with
  | zero => rfl
  | succ k ih =>
    show String.utf8ByteSize ⟨List.replicate (k + 1) 'a'⟩ = k + 1
    simp only [List.replicate]
    have h1 : Char.utf8Size 'a' = 1 := by decide
    simp [String.utf8ByteSize, String.utf8ByteSize.go] at ih ⊢
    omega

theorem repChar_ne_empty (n : Nat) (h : 0 < n) : repChar n ≠ "" := by
  intro hc
  have := congrArg String.utf8ByteSize hc
  rw [utf8ByteSize_repChar] at this
  simp [String.utf8ByteSize, String.utf8ByteSize.go] at this
  omega

theorem hget_append_lt [Inhabited Img] (σ ext : Heap Img) (r : Nat)
    (h : r < σ.length) : hget (σ ++ ext) r = hget σ r := by
  simp [hget, List.getD, List.getElem?_append_left h]

theorem hget_append_self [Inhabited Img] (σ : Heap Img) (v : Img) :
    hget (σ ++ [v]) σ.length = v := by
  induction σ with
  | nil => rfl
  | cons x xs _ => simp [hget, List.getD]

theorem hset_append_self (σ : Heap Img) (v w : Img) :
    hset (σ ++ [v]) σ.length w = σ ++ [w] := by
  induction σ with
  | nil => rfl
  | cons x xs _ => simp [hset]

/-- One iteration of the aggressive loop leaves the heap extended by exactly
the freshly allocated (and thumbnailed) copy; iterating, the final heap is
the initial heap plus fresh cells only. -/
theorem aggressive_compress_go_heap [Inhabited Img] (env : PILEnv Img)
    (r : Nat) (sizes : List (Nat × Nat)) (σ : Heap Img) :
    ∃ ext, (aggressive_compress_go env r sizes σ).2 = σ ++ ext := by
  induction sizes generalizing σ with
  | nil => exact ⟨[], by simp [aggressive_compress_go]⟩
  | cons size rest ih =>
    simp only [aggressive_compress_go, halloc, hget_append_self, hset_append_self]
    by_cases hb :
        (env.save (env.thumbnail (hget σ r) size none) none).length ≤ 250000
    · exact ⟨[env.thumbnail (hget σ r) size none], by simp [hb]⟩
    · obtain ⟨ext, hext⟩ := ih (σ ++ [env.thumbnail (hget σ r) size none])
      exact ⟨env.thumbnail (hget σ r) size none :: ext, by simp [hb, hext]⟩

/-- The heap after `aggressive_compress` extends the initial heap: no existing
image object is modified by the aggressive stage. -/
theorem aggressive_compress_heap [Inhabited Img] (env : PILEnv Img)
    (σ : Heap Img) (r : Nat) :
    ∃ ext, (aggressive_compress env σ r).2 = σ ++ ext :=
  aggressive_compress_go_heap env r _ σ

/-- The image object handed to the aggressive stage is unchanged by it. -/
theorem aggressive_compress_frame [Inhabited Img] (env : PILEnv Img)
    (σ : Heap Img) (r : Nat) (h : r < σ.length) :
    hget (aggressive_compress env σ r).2 r = hget σ r := by
  obtain ⟨ext, hext⟩ := aggressive_compress_heap env σ r
  rw [hext, hget_append_lt _ _ _ h]

/-- The value returned by the aggressive loop is the first candidate
re-encode, in loop order, whose size fits the budget. -/
theorem aggressive_compress_go_find [Inhabited Img] (env : PILEnv Img)
    (r : Nat) (sizes : List (Nat × Nat)) (σ : Heap Img) (h : r < σ.length) :
    (aggressive_compress_go env r sizes σ).1 =
      (sizes.map (fun s => env.save (env.thumbnail (hget σ r) s none) none)).find?
        (fun b => b.length ≤ 250000) := by
  induction sizes generalizing σ with
  | nil => simp [aggressive_compress_go]
  | cons size rest ih =>
    simp only [aggressive_compress_go, halloc, hget_append_self, hset_append_self,
      List.map_cons, List.find?]
    by_cases hb :
        (env.save (env.thumbnail (hget σ r) size none) none).length ≤ 250000
    · simp [hb]
    · have hlt : r < (σ ++ [env.thumbnail (hget σ r) size none]).length := by
        simp; omega
      have hg := hget_append_lt σ [env.thumbnail (hget σ r) size none] r h
      simp [hb, ih _ hlt, hg]

/-- `aggressive_compress` returns the first of the 400→300→200 candidate
re-encodes that fits the budget (`List.find?` over the candidates in that
order), and `none` when none fits. -/
theorem aggressive_compress_find [Inhabited Img] (env : PILEnv Img)
    (σ : Heap Img) (r : Nat) (h : r < σ.length) :
    (aggressive_compress env σ r).1 =
      (aggressiveCandidates env (hget σ r)).find? (fun b => b.length ≤ 250000) :=
  aggressive_compress_go_find env r _ σ h

theorem compress_tail_eq [Inhabited Img] (env : PILEnv Img) (σ : Heap Img)
    (r : Nat) (h : r < σ.length) :
    (if (env.save (hget σ r) (some 85)).length > 250000 then
      match aggressive_compress env σ r with
      | (some compressed, _) => some compressed
      | (none, σ4) => some (env.save (env.convert (hget σ4 r) "L") (some 70))
    else some (env.save (hget σ r) (some 85)))
      = compressSpecTail env (hget σ r) := by
  unfold compressSpecTail
  by_cases hb : (env.save (hget σ r) (some 85)).length > 250000
  · simp only [if_pos hb]
    have hfind := aggressive_compress_find env σ r h
    have hframe := aggressive_compress_frame env σ r h
    rcases hp : aggressive_compress env σ r with ⟨res, σ4⟩
    rw [hp] at hfind hframe
    simp only at hfind hframe
    cases res with
    | some c => simp [← hfind]
    | none => simp [← hfind, hframe]
  · simp only [if_neg hb]

/-- For a decodable input that does not take the fast path, `compress_image`
computes `compressSpecTail` of the 500-capped image `normalized500 env img0`. -/
theorem compress_image_eq [Inhabited Img] (env : PILEnv Img) (u : List Nat)
    (img0 : Img) (hd : env.decode u = some img0)
    (hfast : ¬(u.length ≤ 250000 ∧ env.format img0 = some "PNG")) :
    compress_image env u = compressSpecTail env (normalized500 env img0) := by
  unfold compress_image
  rw [hd]
  simp only [if_neg hfast]
  by_cases hm : env.mode (hget (halloc ([] : Heap Img) img0).2 (halloc ([] : Heap Img) img0).1) ≠ "RGBA" ∧
      env.mode (hget (halloc ([] : Heap Img) img0).2 (halloc ([] : Heap Img) img0).1) ≠ "RGB"
  · simp only [if_pos hm]
    have hm0 : env.mode img0 ≠ "RGBA" ∧ env.mode img0 ≠ "RGB" := by
      simpa [halloc, hget, List.getD] using hm
    cases hbb : env.getbbox (env.convert img0 "RGB") with
    | some bbox =>
      have hv : normalized500 env img0
          = env.thumbnail (env.crop (env.convert img0 "RGB") bbox) (500, 500) (some "LANCZOS") := by
        simp [normalized500, auto_crop, hm0, hbb]
      have h3 := compress_tail_eq env
        [img0, env.convert img0 "RGB",
          env.thumbnail (env.crop (env.convert img0 "RGB") bbox) (500, 500) (some "LANCZOS")] 2 (by simp)
      simp [hget, List.getD] at h3
      simp [halloc, hget, hset, List.getD, hbb, hv]
      exact h3
    | none =>
      have hv : normalized500 env img0
          = env.thumbnail (env.convert img0 "RGB") (500, 500) (some "LANCZOS") := by
        simp [normalized500, auto_crop, hm0, hbb]
      have h3 := compress_tail_eq env
        [img0, env.thumbnail (env.convert img0 "RGB") (500, 500) (some "LANCZOS")] 1 (by simp)
      simp [hget, List.getD] at h3
      simp [halloc, hget, hset, List.getD, hbb, hv]
      exact h3
  · simp only [if_neg hm]
    have hm0 : ¬(env.mode img0 ≠ "RGBA" ∧ env.mode img0 ≠ "RGB") := by
      simpa [halloc, hget, List.getD] using hm
    cases hbb : env.getbbox img0 with
    | some bbox =>
      have hv : normalized500 env img0
          = env.thumbnail (env.crop img0 bbox) (500, 500) (some "LANCZOS") := by
        simp [normalized500, auto_crop, hm0, hbb]
      have h3 := compress_tail_eq env
        [img0, env.thumbnail (env.crop img0 bbox) (500, 500) (some "LANCZOS")] 1 (by simp)
      simp [hget, List.getD] at h3
      simp [halloc, hget, hset, List.getD, hbb, hv]
      exact h3
    | none =>
      have hv : normalized500 env img0
          = env.thumbnail img0 (500, 500) (some "LANCZOS") := by
        simp [normalized500, auto_crop, hm0, hbb]
      have h3 := compress_tail_eq env
        [env.thumbnail img0 (500, 500) (some "LANCZOS")] 0 (by simp)
      simp [hget, List.getD] at h3
      simp [halloc, hget, hset, List.getD, hbb, hv]
      exact h3

/-- On the fallback path (re-encode over budget and no aggressive candidate
fits), `compress_image` returns the grayscale re-encode of the 500-capped
image unconditionally: there is no size check after the grayscale save. -/
theorem compress_image_fallback [Inhabited Img] (env : PILEnv Img)
    (u : List Nat) (img0 : Img) (hd : env.decode u = some img0)
    (hfast : ¬(u.length ≤ 250000 ∧ env.format img0 = some "PNG"))
    (hbig : 250000 < (env.save (normalized500 env img0) (some 85)).length)
    (hnone : (aggressiveCandidates env (normalized500 env img0)).find?
      (fun b => b.length ≤ 250000) = none) :
    compress_image env u
      = some (env.save (env.convert (normalized500 env img0) "L") (some 70)) := by
  rw [compress_image_eq env u img0 hd hfast]
  simp [compressSpecTail, hbig, hnone]

/-- Case analysis of every `some` result of `compress_image`: the untouched
within-budget PNG input, a within-budget PNG re-encode, or the grayscale
last-resort re-encode (returned without any size check). -/
theorem compress_image_cases [Inhabited Img] (env : PILEnv Img)
    (u b : List Nat) (hres : compress_image env u = some b) :
    ∃ img0, env.decode u = some img0 ∧
      ((b = u ∧ u.length ≤ 250000 ∧ env.format img0 = some "PNG") ∨
       (b.length ≤ 250000 ∧ ∃ i q, b = env.save i q) ∨
       b = env.save (env.convert (normalized500 env img0) "L") (some 70)) := by
  cases hd : env.decode u with
  | none => unfold compress_image at hres; rw [hd] at hres; simp at hres
  | some img0 =>
    refine ⟨img0, rfl, ?_⟩
    by_cases hfast : u.length ≤ 250000 ∧ env.format img0 = some "PNG"
    · unfold compress_image at hres
      rw [hd] at hres
      simp [hfast] at hres
      exact Or.inl ⟨hres.symm, hfast.1, hfast.2⟩
    · rw [compress_image_eq env u img0 hd hfast] at hres
      by_cases hbig : 250000 < (env.save (normalized500 env img0) (some 85)).length
      · simp [compressSpecTail, hbig] at hres
        cases hfind : (aggressiveCandidates env (normalized500 env img0)).find?
            (fun b => b.length ≤ 250000) with
        | some c =>
          rw [hfind] at hres
          have hc := List.find?_some hfind
          have hmem := List.mem_of_find?_eq_some hfind
          simp only [aggressiveCandidates, List.mem_map] at hmem
          obtain ⟨s, _, hs⟩ := hmem
          refine Or.inr (Or.inl ?_)
          simp only [Option.some.injEq] at hres
          subst hres
          exact ⟨by simpa using hc, env.thumbnail (normalized500 env img0) s none,
            none, hs.symm⟩
        | none =>
          rw [hfind] at hres
          simp only [Option.some.injEq] at hres
          exact Or.inr (Or.inr hres.symm)
      · simp [compressSpecTail, hbig] at hres
        exact Or.inr (Or.inl ⟨hres ▸ Nat.le_of_not_lt hbig, normalized500 env img0,
          some 85, hres.symm⟩)

theorem bigList_length (n : Nat) : (bigList n).length = n := by simp [bigList]

theorem cexEnv1_normalized : normalized500 cexEnv1 0 = 500 := by
  simp [normalized500, auto_crop, cexEnv1]

theorem cexEnv1_eval : compress_image cexEnv1 [9] = some (bigList 260000) := by
  have h := compress_image_fallback cexEnv1 [9] 0 rfl (by simp [cexEnv1])
    (by rw [cexEnv1_normalized]; simp [cexEnv1, cexSave1, bigList_length])
    (by rw [cexEnv1_normalized]
        simp [aggressiveCandidates, cexEnv1, cexSave1, bigList_length])
  rw [h, cexEnv1_normalized]
  simp [cexEnv1, cexSave1]

theorem cexEnv2_normalized : normalized500 cexEnv2 0 = 500 := by
  simp [normalized500, auto_crop, cexEnv2]

theorem cexEnv2_eval : compress_image cexEnv2 [9] = some [7, 7] := by
  have h := compress_image_fallback cexEnv2 [9] 0 rfl (by simp [cexEnv2])
    (by rw [cexEnv2_normalized]; simp [cexEnv2, cexSave2, bigList_length])
    (by rw [cexEnv2_normalized]
        simp [aggressiveCandidates, cexEnv2, cexSave2, bigList_length])
  rw [h, cexEnv2_normalized]
  simp [cexEnv2, cexSave2]

/-- C1, counterexample: with PIL behavior `cexEnv1` (grayscale re-encode of
260,000 bytes), `compress_image` returns that oversized buffer instead of
signalling failure, refuting "returns a buffer of size at most 250,000 bytes
or signals a definitive failure". -/
theorem C1_counterexample :
    compress_image cexEnv1 [9] = some (bigList 260000) ∧
    250000 < (bigList 260000).length ∧
    compress_image cexEnv1 [9] ≠ none := by
  refine ⟨cexEnv1_eval, by rw [bigList_length]; norm_num, ?_⟩
  rw [cexEnv1_eval]
  simp

/-- C1, amended: every buffer `compress_image` returns is the untouched
within-budget PNG input, a PNG re-encode within the 250,000-byte budget, or
the grayscale last-resort re-encode, which is returned without any size
check and may exceed the budget; `None` arises only from a decode failure. -/
theorem C1_normalizer_size (Img : Type) [Inhabited Img] (env : PILEnv Img)
    (u b : List Nat) (hres : compress_image env u = some b) :
    ∃ img0, env.decode u = some img0 ∧
      ((b = u ∧ u.length ≤ 250000 ∧ env.format img0 = some "PNG") ∨
       (b.length ≤ 250000 ∧ ∃ i q, b = env.save i q) ∨
       b = env.save (env.convert (normalized500 env img0) "L") (some 70)) :=
  compress_image_cases env u b hres

/-- C1, witness: under `cexEnv1` the returned oversized buffer is indeed the
grayscale last-resort re-encode of the 500-capped image. -/
theorem C1_witness :
    bigList 260000
      = cexEnv1.save (cexEnv1.convert (normalized500 cexEnv1 0) "L") (some 70) := by
  obtain ⟨img0, hd, hc⟩ :=
    C1_normalizer_size Nat cexEnv1 [9] (bigList 260000) cexEnv1_eval
  have h0 : 0 = img0 := by simpa [cexEnv1] using hd
  subst h0
  rcases hc with ⟨hb, _, _⟩ | ⟨hlen, _⟩ | h
  · have := congrArg List.length hb
    rw [bigList_length] at this
    simp at this
  · exact absurd hlen (by rw [bigList_length]; omega)
  · exact h

/-- C2, counterexample: with PIL behavior `cexEnv2`, the 500-resize exceeds
the budget, none of the three aggressive caps passes, yet the Normalizer
does not fail: it returns the (here tiny) grayscale re-encode, refuting
"grayscale is re-encoded once more before the Normalizer fails". -/
theorem C2_counterexample :
    250000 < (cexEnv2.save (normalized500 cexEnv2 0) (some 85)).length ∧
    (aggressiveCandidates cexEnv2 (normalized500 cexEnv2 0)).find?
      (fun b => b.length ≤ 250000) = none ∧
    compress_image cexEnv2 [9] = some [7, 7] ∧
    compress_image cexEnv2 [9] ≠ none := by
  refine ⟨?_, ?_, cexEnv2_eval, by rw [cexEnv2_eval]; simp⟩
  · rw [cexEnv2_normalized]
    simp [cexEnv2, cexSave2, bigList_length]
  · rw [cexEnv2_normalized]
    simp [aggressiveCandidates, cexEnv2, cexSave2, bigList_length]

/-- C2, amended: when the 500-resize exceeds the budget, the aggressive stage
tries caps 400×400, 300×300, 200×200 in that order and returns the first
re-encode within 250,000 bytes (`List.find?` over the ordered candidates);
when none passes, the image is grayscaled and re-encoded exactly once more
and that buffer is returned as the result (the Normalizer does not fail). -/
theorem C2_degradation :
    (∀ (Img : Type) [Inhabited Img] (env : PILEnv Img) (σ : Heap Img) (r : Nat),
      r < σ.length →
      (aggressive_compress env σ r).1
        = (aggressiveCandidates env (hget σ r)).find? (fun b => b.length ≤ 250000)) ∧
    (∀ (Img : Type) [Inhabited Img] (env : PILEnv Img) (u : List Nat) (img0 : Img),
      env.decode u = some img0 →
      ¬(u.length ≤ 250000 ∧ env.format img0 = some "PNG") →
      250000 < (env.save (normalized500 env img0) (some 85)).length →
      (aggressiveCandidates env (normalized500 env img0)).find?
        (fun b => b.length ≤ 250000) = none →
      compress_image env u
        = some (env.save (env.convert (normalized500 env img0) "L") (some 70))) :=
  ⟨fun _ _ env σ r h => aggressive_compress_find env σ r h,
   fun _ _ env u img0 hd hf hb hn => compress_image_fallback env u img0 hd hf hb hn⟩

/-- C2, witness: both parts of the amended statement evaluated under
`cexEnv2` on a concrete run. -/
theorem C2_witness :
    (aggressive_compress cexEnv2 [(500 : Nat)] 0).1
      = (aggressiveCandidates cexEnv2 (hget [(500 : Nat)] 0)).find?
          (fun b => b.length ≤ 250000) ∧
    compress_image cexEnv2 [9]
      = some (cexEnv2.save (cexEnv2.convert (normalized500 cexEnv2 0) "L") (some 70)) :=
  ⟨C2_degradation.1 Nat cexEnv2 [500] 0 (by simp),
   C2_degradation.2 Nat cexEnv2 [9] 0 rfl (by simp [cexEnv2])
     (by rw [cexEnv2_normalized]; simp [cexEnv2, cexSave2, bigList_length])
     (by rw [cexEnv2_normalized]
         simp [aggressiveCandidates, cexEnv2, cexSave2, bigList_length])⟩

/-- C8: if the uploaded bytes decode to an image whose detected format is
PNG and their length is at most 250,000, `compress_image` returns the input
bytes unchanged: the Normalizer is the identity on that subdomain. -/
theorem C8_fast_path (Img : Type) [Inhabited Img] (env : PILEnv Img)
    (u : List Nat) (img0 : Img) (hd : env.decode u = some img0)
    (hpng : env.format img0 = some "PNG") (hsz : u.length ≤ 250000) :
    compress_image env u = some u := by
  unfold compress_image
  rw [hd]
  simp [hsz, hpng]

/-- C8, witness: a small already-PNG input is returned byte-identical. -/
theorem C8_witness : compress_image pngEnv [1, 2, 3] = some [1, 2, 3] :=
  C8_fast_path Nat pngEnv [1, 2, 3] 0 rfl rfl (by norm_num)

/-- C10: the aggressive stage only allocates fresh image objects (the final
heap extends the initial one), so the image object handed to it is unchanged
by the stage; consequently, when all three aggressive caps fail, the grayscale
last resort in `compress_image` is applied to the 500-capped image
`normalized500`, not to a 200×200-thumbnailed one. -/
theorem C10_aggressive_frame :
    (∀ (Img : Type) [Inhabited Img] (env : PILEnv Img) (σ : Heap Img) (r : Nat),
      ∃ ext, (aggressive_compress env σ r).2 = σ ++ ext) ∧
    (∀ (Img : Type) [Inhabited Img] (env : PILEnv Img) (σ : Heap Img) (r : Nat),
      r < σ.length → hget (aggressive_compress env σ r).2 r = hget σ r) ∧
    (∀ (Img : Type) [Inhabited Img] (env : PILEnv Img) (u : List Nat) (img0 : Img),
      env.decode u = some img0 →
      ¬(u.length ≤ 250000 ∧ env.format img0 = some "PNG") →
      250000 < (env.save (normalized500 env img0) (some 85)).length →
      (aggressiveCandidates env (normalized500 env img0)).find?
        (fun b => b.length ≤ 250000) = none →
      compress_image env u
        = some (env.save (env.convert (normalized500 env img0) "L") (some 70))) :=
  ⟨fun _ _ env σ r => aggressive_compress_heap env σ r,
   fun _ _ env σ r h => aggressive_compress_frame env σ r h,
   fun _ _ env u img0 hd hf hb hn => compress_image_fallback env u img0 hd hf hb hn⟩

/-- C10, witness: on a concrete run where all aggressive caps fail, the
image object handed to the aggressive stage is unchanged and the grayscale
re-encode of the 500-capped image is the returned buffer. -/
theorem C10_witness :
    hget (aggressive_compress cexEnv1 [(500 : Nat)] 0).2 0 = hget [(500 : Nat)] 0 ∧
    compress_image cexEnv1 [9]
      = some (cexEnv1.save (cexEnv1.convert (normalized500 cexEnv1 0) "L") (some 70)) :=
  ⟨C10_aggressive_frame.2.1 Nat cexEnv1 [500] 0 (by simp),
   C10_aggressive_frame.2.2 Nat cexEnv1 [9] 0 rfl (by simp [cexEnv1])
     (by rw [cexEnv1_normalized]; simp [cexEnv1, cexSave1, bigList_length])
     (by rw [cexEnv1_normalized]
         simp [aggressiveCandidates, cexEnv1, cexSave1, bigList_length])⟩

/-- A RUNNING response consumes one attempt: one query, one sleep, retry. -/
theorem poll_go_running_step (parse : String → Option PyVal)
    (describe : Nat → Except String DescribeResponse) (i n : Nat)
    (h0 : describe i = .ok ⟨"RUNNING", Option.none, Option.none⟩) :
    poll_execution_status_go parse describe i (n + 1)
      = ((poll_execution_status_go parse describe (i + 1) n).1,
         (poll_execution_status_go parse describe (i + 1) n).2.1 + 1,
         (poll_execution_status_go parse describe (i + 1) n).2.2 + 1) := by
  conv_lhs => unfold poll_execution_status_go
  rw [h0]
  simp

/-- A SUCCEEDED response stops the loop at once: the output is parsed and
the result is SUCCEEDED+parsed or the ERROR dict, with no further query. -/
theorem poll_go_succeeded_step (parse : String → Option PyVal)
    (describe : Nat → Except String DescribeResponse) (i n : Nat)
    (resp : DescribeResponse) (h0 : describe i = .ok resp)
    (hs : resp.status = "SUCCEEDED") :
    poll_execution_status_go parse describe i (n + 1)
      = (match parse (resp.output.getD "\x7b\x7d") with
         | some parsed_output => (⟨"SUCCEEDED", some parsed_output, Option.none⟩, 1, 0)
         | Option.none => (⟨"ERROR", Option.none, some "Invalid JSON output"⟩, 1, 0)) := by
  conv_lhs => unfold poll_execution_status_go
  rw [h0]
  simp only [hs, reduceIte]

/-- A block of `k` consecutive RUNNING responses is skipped, consuming `k`
attempts and adding `k` status queries and `k` sleeps. -/
theorem poll_go_skip (parse : String → Option PyVal)
    (describe : Nat → Except String DescribeResponse) :
    ∀ (k n i : Nat), k ≤ n →
    (∀ j, j < k → describe (i + j) = .ok ⟨"RUNNING", Option.none, Option.none⟩) →
    poll_execution_status_go parse describe i n
      = ((poll_execution_status_go parse describe (i + k) (n - k)).1,
         (poll_execution_status_go parse describe (i + k) (n - k)).2.1 + k,
         (poll_execution_status_go parse describe (i + k) (n - k)).2.2 + k) := by
  intro k
  induction k with
  | zero => intro n i _ _; simp
  | succ m ih =>
    intro n i hkn hr
    cases n with
    | zero => omega
    | succ nn =>
      have h0 : describe i = .ok ⟨"RUNNING", Option.none, Option.none⟩ := by
        simpa using hr 0 (by omega)
      have hrec := ih nn (i + 1) (by omega) (fun j hj => by
        rw [show i + 1 + j = i + (j + 1) from by omega]
        exact hr (j + 1) (by omega))
      rw [poll_go_running_step parse describe i nn h0, hrec,
        show i + 1 + m = i + (m + 1) from by omega,
        show nn - m = nn + 1 - (m + 1) from by omega]
      simp [Nat.add_assoc]

/-- All 30 attempts RUNNING: the loop issues exactly 30 queries and returns
the TIMEOUT dict with the fixed message. -/
theorem poll_go_all_running (parse : String → Option PyVal)
    (describe : Nat → Except String DescribeResponse) (n : Nat)
    (h : ∀ j, j < n → describe j = .ok ⟨"RUNNING", Option.none, Option.none⟩) :
    poll_execution_status parse describe n
      = (⟨"TIMEOUT", Option.none, some "Maximum polling attempts reached"⟩, n, n) := by
  unfold poll_execution_status
  have := poll_go_skip parse describe n n 0 (le_refl n) (fun j hj => by
    simpa using h j hj)
  rw [this]
  simp [poll_execution_status_go]

/-- C3: if every attempt of the poll loop sees RUNNING, the loop issues
exactly 30 status queries, no more, and returns the code's TIMEOUT dict
(the spec's POLL_EXHAUSTED terminal state) carrying the fixed
"Maximum polling attempts reached" message. -/
theorem C3_poll_exhausted (parse : String → Option PyVal)
    (describe : Nat → Except String DescribeResponse)
    (h : ∀ j, j < 30 → describe j = .ok ⟨"RUNNING", Option.none, Option.none⟩) :
    poll_execution_status parse describe 30
      = (⟨"TIMEOUT", Option.none, some "Maximum polling attempts reached"⟩, 30, 30) :=
  poll_go_all_running parse describe 30 h

/-- C3, witness: a status oracle that always answers RUNNING. -/
theorem C3_witness :
    poll_execution_status (fun _ => Option.none)
      (fun _ => .ok ⟨"RUNNING", Option.none, Option.none⟩) 30
      = (⟨"TIMEOUT", Option.none, some "Maximum polling attempts reached"⟩, 30, 30) :=
  C3_poll_exhausted _ _ (fun _ _ => rfl)

/-- C4: if after `k` RUNNING responses the status query reports SUCCEEDED
but the output does not parse as JSON, `poll_execution_status` returns the
ERROR dict with the parse-failure message — its status is never SUCCEEDED. -/
theorem C4_unparseable_output (parse : String → Option PyVal)
    (describe : Nat → Except String DescribeResponse) (k : Nat)
    (resp : DescribeResponse) (hk : k < 30)
    (hrun : ∀ j, j < k → describe j = .ok ⟨"RUNNING", Option.none, Option.none⟩)
    (hresp : describe k = .ok resp) (hs : resp.status = "SUCCEEDED")
    (hp : parse (resp.output.getD "\x7b\x7d") = Option.none) :
    poll_execution_status parse describe 30
      = (⟨"ERROR", Option.none, some "Invalid JSON output"⟩, k + 1, k) ∧
    (poll_execution_status parse describe 30).1.status ≠ "SUCCEEDED" := by
  have hterm : poll_execution_status_go parse describe k (30 - k)
      = (⟨"ERROR", Option.none, some "Invalid JSON output"⟩, 1, 0) := by
    rw [show 30 - k = (30 - k - 1) + 1 from by omega,
      poll_go_succeeded_step parse describe k _ resp hresp hs, hp]
  have hskip := poll_go_skip parse describe k 30 0 (by omega)
    (fun j hj => by simpa using hrun j hj)
  have hfull : poll_execution_status parse describe 30
      = (⟨"ERROR", Option.none, some "Invalid JSON output"⟩, k + 1, k) := by
    unfold poll_execution_status
    rw [hskip]
    simp only [Nat.zero_add]
    rw [hterm]
    simp [Nat.add_comm]
  exact ⟨hfull, by rw [hfull]; simp⟩

/-- C4, witness: immediate SUCCEEDED with unparseable output. -/
theorem C4_witness :
    poll_execution_status (fun _ => Option.none)
      (fun _ => .ok ⟨"SUCCEEDED", some "bad", Option.none⟩) 30
      = (⟨"ERROR", Option.none, some "Invalid JSON output"⟩, 1, 0) :=
  (C4_unparseable_output (fun _ => Option.none)
    (fun _ => .ok ⟨"SUCCEEDED", some "bad", Option.none⟩) 0
    ⟨"SUCCEEDED", some "bad", Option.none⟩ (by omega)
    (fun j hj => absurd hj (by omega)) rfl rfl rfl).1

/-- C5: on a RUNNING, RUNNING, SUCCEEDED status sequence with parseable dict
output, the poll loop returns SUCCEEDED after exactly 2 sleeps (3 queries),
and `trigger_analysis` returns the mapping with exactly the three keys
`visual_analysis`, `activity_pattern`, `productivity_assessment`, each
extracted by `get` with an empty dict as default, so a missing key yields an
empty mapping rather than an error. -/
theorem C5_success_path (parse : String → Option PyVal)
    (describe : Nat → Except String DescribeResponse)
    (resp : HttpResponse) (d out : List (String × PyVal)) (img s : String)
    (hval : (validate_input img).1 = true)
    (hcode : resp.status_code = 200)
    (hbody : resp.jsonBody = .ok (PyVal.dict d))
    (harn : pyTruthy (pyGet d "executionArn" PyVal.none) = true)
    (hr0 : describe 0 = .ok ⟨"RUNNING", Option.none, Option.none⟩)
    (hr1 : describe 1 = .ok ⟨"RUNNING", Option.none, Option.none⟩)
    (hr2 : describe 2 = .ok ⟨"SUCCEEDED", some s, Option.none⟩)
    (hp : parse s = some (PyVal.dict out)) :
    poll_execution_status parse describe 30
      = (⟨"SUCCEEDED", some (PyVal.dict out), Option.none⟩, 3, 2) ∧
    trigger_analysis parse (.ok resp) describe img
      = (some ⟨pyGet out "visual_analysis" (PyVal.dict []),
          pyGet out "activity_pattern" (PyVal.dict []),
          pyGet out "productivity_assessment" (PyVal.dict [])⟩, [], 3) ∧
    (∀ k, out.find? (fun kv => kv.1 == k) = Option.none →
      pyGet out k (PyVal.dict []) = PyVal.dict []) := by
  have hpoll : poll_execution_status parse describe 30
      = (⟨"SUCCEEDED", some (PyVal.dict out), Option.none⟩, 3, 2) := by
    unfold poll_execution_status
    have hskip := poll_go_skip parse describe 2 30 0 (by omega) (fun j hj => by
      interval_cases j
      · simpa using hr0
      · simpa using hr1)
    rw [hskip]
    simp only [Nat.zero_add]
    rw [show 30 - 2 = 27 + 1 from by norm_num,
      poll_go_succeeded_step parse describe 2 27 ⟨"SUCCEEDED", some s, Option.none⟩ hr2 rfl]
    simp [hp]
  refine ⟨hpoll, ?_, fun k hk => by simp [pyGet, hk]⟩
  unfold trigger_analysis
  simp only [hval, hcode, hbody, harn, hpoll]
  simp

/-- C5, witness: concrete oracles realizing the scenario with empty parsed
output, so all three sections default to the empty mapping. -/
theorem C5_witness :
    trigger_analysis (fun t => if t = "out" then some (PyVal.dict []) else Option.none)
      (.ok ⟨200, .ok (PyVal.dict [("executionArn", PyVal.str "arn:aws:states:demo")]), ""⟩)
      (fun i => if i < 2 then .ok ⟨"RUNNING", Option.none, Option.none⟩
        else .ok ⟨"SUCCEEDED", some "out", Option.none⟩) "abc"
      = (some ⟨pyGet [] "visual_analysis" (PyVal.dict []),
          pyGet [] "activity_pattern" (PyVal.dict []),
          pyGet [] "productivity_assessment" (PyVal.dict [])⟩, [], 3) :=
  (C5_success_path (fun t => if t = "out" then some (PyVal.dict []) else Option.none)
    (fun i => if i < 2 then .ok ⟨"RUNNING", Option.none, Option.none⟩
      else .ok ⟨"SUCCEEDED", some "out", Option.none⟩)
    ⟨200, .ok (PyVal.dict [("executionArn", PyVal.str "arn:aws:states:demo")]), ""⟩
    [("executionArn", PyVal.str "arn:aws:states:demo")] [] "abc" "out"
    (by decide) rfl rfl (by decide) rfl rfl rfl rfl).2.1

/-- C6: an HTTP 200 submission response whose JSON body has no
`executionArn` key makes `trigger_analysis` return the error message and a
`None` result with zero status queries issued: the job never enters polling. -/
theorem C6_no_execution_arn (parse : String → Option PyVal)
    (describe : Nat → Except String DescribeResponse)
    (resp : HttpResponse) (d : List (String × PyVal)) (img : String)
    (hval : (validate_input img).1 = true)
    (hcode : resp.status_code = 200)
    (hbody : resp.jsonBody = .ok (PyVal.dict d))
    (harn : d.find? (fun kv => kv.1 == "executionArn") = Option.none) :
    trigger_analysis parse (.ok resp) describe img
      = (Option.none, ["No execution ARN received"], 0) := by
  unfold trigger_analysis
  simp [hval, hcode, hbody, pyGet, harn, pyTruthy]

/-- C6, witness: a 200 response whose body has only an unrelated key; the
status oracle would fail if it were ever consulted. -/
theorem C6_witness :
    trigger_analysis (fun _ => Option.none)
      (.ok ⟨200, .ok (PyVal.dict [("message", PyVal.str "ok")]), "ok"⟩)
      (fun _ => .error "never queried") "abc"
      = (Option.none, ["No execution ARN received"], 0) :=
  C6_no_execution_arn (fun _ => Option.none) (fun _ => .error "never queried")
    ⟨200, .ok (PyVal.dict [("message", PyVal.str "ok")]), "ok"⟩
    [("message", PyVal.str "ok")] "abc" (by decide) rfl rfl rfl

theorem validate_input_empty : validate_input "" = (false, "No image data provided") :=
  rfl

theorem validate_input_large (p : String) (h : 262000 < p.utf8ByteSize) :
    validate_input p = (false, "Image too large (" ++ toString p.utf8ByteSize ++
      " bytes). Maximum allowed is 262144 bytes.") := by
  have hne : p ≠ "" := by
    intro he
    subst he
    exact absurd h (by decide)
  unfold validate_input
  simp [hne, h]

theorem validate_input_ok (p : String) (hne : p ≠ "")
    (hle : p.utf8ByteSize ≤ 262000) : validate_input p = (true, "") := by
  unfold validate_input
  simp [hne, if_neg (Nat.not_lt.mpr hle)]

/-- C7: the validator is a pure function for which the empty payload fails
with the no-image-data message, a payload of UTF-8 byte length over 262,000
fails with a message containing the numeric size, and every non-empty
payload of byte length at most 262,000 passes. -/
theorem C7_validate_input :
    validate_input "" = (false, "No image data provided") ∧
    (∀ p : String, 262000 < p.utf8ByteSize →
      validate_input p = (false, "Image too large (" ++ toString p.utf8ByteSize ++
        " bytes). Maximum allowed is 262144 bytes.")) ∧
    (∀ p : String, p ≠ "" → p.utf8ByteSize ≤ 262000 →
      validate_input p = (true, "")) :=
  ⟨validate_input_empty, validate_input_large, validate_input_ok⟩

/-- C7, witness: the three cases at concrete payloads. -/
theorem C7_witness :
    validate_input "" = (false, "No image data provided") ∧
    validate_input (repChar 300000) = (false, "Image too large ("
      ++ toString (300000 : Nat) ++ " bytes). Maximum allowed is 262144 bytes.") ∧
    validate_input "abc" = (true, "") := by
  refine ⟨C7_validate_input.1, ?_, ?_⟩
  · have h := C7_validate_input.2.1 (repChar 300000)
      (by rw [utf8ByteSize_repChar]; omega)
    rwa [utf8ByteSize_repChar] at h
  · exact C7_validate_input.2.2 "abc" (by decide) (by decide)

/-- C9: payloads of UTF-8 byte length strictly between 262,000 and 262,144
are rejected, with a message announcing a 262,144-byte maximum, while the
ceiling actually enforced is 262,000: every non-empty payload at or under
262,000 bytes passes. -/
theorem C9_ceiling_mismatch :
    (∀ p : String, 262000 < p.utf8ByteSize → p.utf8ByteSize ≤ 262144 →
      validate_input p = (false, "Image too large (" ++ toString p.utf8ByteSize ++
        " bytes). Maximum allowed is 262144 bytes.")) ∧
    (∀ p : String, p ≠ "" → p.utf8ByteSize ≤ 262000 →
      (validate_input p).1 = true) :=
  ⟨fun p h _ => validate_input_large p h,
   fun p hne hle => by rw [validate_input_ok p hne hle]⟩

/-- C9, witness: a 262,001-byte payload is rejected — despite the message's
announced 262,144-byte maximum — and a 262,000-byte payload passes. -/
theorem C9_witness :
    validate_input (repChar 262001) = (false, "Image too large ("
      ++ toString (262001 : Nat) ++ " bytes). Maximum allowed is 262144 bytes.") ∧
    (validate_input (repChar 262000)).1 = true := by
  constructor
  · have h := C9_ceiling_mismatch.1 (repChar 262001)
      (by rw [utf8ByteSize_repChar]; omega) (by rw [utf8ByteSize_repChar]; omega)
    rwa [utf8ByteSize_repChar] at h
  · exact C9_ceiling_mismatch.2 (repChar 262000)
      (repChar_ne_empty 262000 (by omega)) (by rw [utf8ByteSize_repChar])

end EP
